import Mathlib

/-!
Verification development for the CervixAI screening workflow (repository
oncophi).  The definitions below are a shallow embedding of the Python
source under src/app/app: SQLAlchemy model classes become Lean structures,
service and route functions become pure functions taking and returning an
explicit database state, datetimes are modelled as natural numbers, float
confidences as rationals, and uuid defaults as explicit id parameters.
The source class named after a clinician mark-up record (models/annotation.py)
is embedded as the structure Annot; all of its fields keep their source names.
-/

namespace CervixAI

/-- JSON scalar values appearing in the flexible JSON columns
(details payloads, override flags, metadata). -/
inductive JsonVal where
  | null : JsonVal
  | bool (b : Bool) : JsonVal
  | str (s : String) : JsonVal
  | num (q : ℚ) : JsonVal
  | strs (xs : List String) : JsonVal
deriving DecidableEq

/-- Role model (models/role.py).  Permissions are a JSON object mapping a
resource-type name to the list of allowed actions; embedded as an
association list in insertion order. -/
structure Role where
  id : String
  role_name : String
  description : Option String
  permissions : List (String × List String)
deriving DecidableEq

/-- Role.has_permission (models/role.py lines 34-37):
resource_perms = self.permissions.get(resource, []);
return action in resource_perms or "*" in resource_perms. -/
def Role.has_permission (r : Role) (resource action : String) : Bool :=
  let resource_perms := (r.permissions.lookup resource).getD []
  resource_perms.contains action || resource_perms.contains "*"

/-- User model (models/user.py); only the fields the embedded operations
read are carried.  role is the legacy string role, role_ref the linked
Role row (None when role_id is null). -/
structure User where
  id : String
  email : String
  role : String
  role_ref : Option Role
deriving DecidableEq

/-- User.has_permission (models/user.py lines 73-78): if a Role row is
linked, delegate to it; otherwise fall back to the legacy string role and
grant everything exactly when it equals "admin". -/
def User.has_permission (u : User) (resource action : String) : Bool :=
  match u.role_ref with
  | some r => r.has_permission resource action
  | none => u.role == "admin"

/-- DEFAULT_ROLES entry "admin" (models/role.py lines 42-54). -/
def admin_role : Role :=
  { id := "role-admin", role_name := "admin",
    description := some "System administrator with full access",
    permissions :=
      [("users", ["*"]), ("patients", ["*"]), ("samples", ["*"]),
       ("diagnoses", ["*"]), ("annotations", ["*"]), ("audit", ["*"]),
       ("settings", ["*"])] }

/-- DEFAULT_ROLES entry "pathologist" (models/role.py lines 55-65). -/
def pathologist_role : Role :=
  { id := "role-pathologist", role_name := "pathologist",
    description := some "Pathologist - can review and approve diagnoses",
    permissions :=
      [("patients", ["read"]), ("samples", ["read", "write"]),
       ("diagnoses", ["read", "write", "approve"]),
       ("annotations", ["read", "write", "sign_off"]), ("audit", ["read"])] }

/-- DEFAULT_ROLES entry "cytotechnologist" (models/role.py lines 66-76). -/
def cytotechnologist_role : Role :=
  { id := "role-cyto", role_name := "cytotechnologist",
    description := some "Cytotechnologist - screens samples, flags abnormalities",
    permissions :=
      [("patients", ["read"]), ("samples", ["read", "write"]),
       ("diagnoses", ["read", "write"]), ("annotations", ["read", "write"]),
       ("audit", ["read"])] }

/-- DEFAULT_ROLES entry "physician" (models/role.py lines 77-87). -/
def physician_role : Role :=
  { id := "role-physician", role_name := "physician",
    description := some "Physician - manages patients and orders screenings",
    permissions :=
      [("patients", ["read", "write"]), ("samples", ["read", "write"]),
       ("diagnoses", ["read"]), ("annotations", ["read"]), ("audit", ["read"])] }

/-- DEFAULT_ROLES entry "it_admin" (models/role.py lines 88-97). -/
def it_admin_role : Role :=
  { id := "role-it", role_name := "it_admin",
    description := some "IT Administrator - manages integrations and system health",
    permissions :=
      [("users", ["read"]), ("settings", ["read", "write"]),
       ("integrations", ["*"]), ("audit", ["read"])] }

/-- DEFAULT_ROLES (models/role.py lines 41-98), in source order. -/
def DEFAULT_ROLES : List Role :=
  [admin_role, pathologist_role, cytotechnologist_role, physician_role, it_admin_role]

/-- Patient model (models/patient.py).  Dates are day counts, datetimes
second counts. -/
structure Patient where
  id : String
  first_name : String
  last_name : String
  date_of_birth : Nat
  gender : Option String
  contact_info : List (String × JsonVal)
  email : Option String
  phone : Option String
  medical_record_number : Option String
  consent_given : Bool
  consent_date : Option Nat
  notes : Option String
  risk_factors : List (String × JsonVal)
  is_active : Bool
deriving DecidableEq

/-- PatientCreate schema (schemas/patient.py). -/
structure PatientCreate where
  first_name : String
  last_name : String
  date_of_birth : Nat
  email : Option String
  phone : Option String
  medical_record_number : Option String
  notes : Option String
  consent_given : Bool
deriving DecidableEq

/-- PatientUpdate schema (schemas/patient.py); a field set to none was not
provided in the request (pydantic model_dump(exclude_unset=True)). -/
structure PatientUpdate where
  first_name : Option String
  last_name : Option String
  email : Option String
  phone : Option String
  notes : Option String
  consent_given : Option Bool
deriving DecidableEq

/-- Screening model (models/screening.py): a screening episode; status is
one of pending, ai_analyzed, under_review, completed, cancelled. -/
structure Screening where
  id : String
  patient_id : String
  status : String
  clinical_notes : Option String
  reason_for_screening : Option String
deriving DecidableEq

/-- ScreeningImage model (models/image.py); only the fields read by the
analyze route are carried. -/
structure ScreeningImage where
  id : String
  screening_id : String
  filename : String
  file_path : String
deriving DecidableEq

/-- Sample model (models/sample.py). -/
structure Sample where
  id : String
  patient_id : String
  collection_date : Nat
  batch_id : Option String
  sample_type : Option String
  metadata : List (String × JsonVal)
  status : String
  image_path : Option String
deriving DecidableEq

/-- Diagnosis model (models/diagnosis.py).  The trailing four fields
(status, reviewed_by_id, reviewed_at, agrees_with_ai) are not declared
columns; they are instance attributes that the legacy service layer
(services/annotation_service.py, services/ai_result_service.py) assigns
on Diagnosis objects, so the embedding carries them alongside the columns. -/
structure Diagnosis where
  id : String
  screening_id : String
  ai_prediction : Option String
  ai_confidence : Option ℚ
  ai_analysis_date : Option Nat
  ai_notes : Option String
  reviewer_id : Option String
  clinician_agrees_with_ai : Option Bool
  clinician_diagnosis : Option String
  clinician_notes : Option String
  review_date : Option Nat
  final_diagnosis : Option String
  final_notes : Option String
  finalized_at : Option Nat
  follow_up_recommended : Bool
  follow_up_notes : Option String
  status : Option String
  reviewed_by_id : Option String
  reviewed_at : Option Nat
  agrees_with_ai : Option Bool
deriving DecidableEq

/-- AIResult model (models/ai_result.py).  The diagnosis JSON column
holds the primary label and the raw prediction map. -/
structure AIResult where
  id : String
  sample_id : String
  diagnosis_primary : String
  diagnosis_raw_predictions : List (String × ℚ)
  confidence_scores : List (String × ℚ)
  primary_prediction : Option String
  primary_confidence : Option ℚ
  heatmap_path : Option String
  model_version : Option String
  model_name : Option String
  ai_notes : Option String
deriving DecidableEq

/-- Clinician mark-up record (models/annotation.py): the review of one
AIResult, with the mandatory sign-off fields.  Source field names are kept. -/
structure Annot where
  id : String
  result_id : String
  clinician_id : Option String
  agrees_with_ai : Option Bool
  clinician_diagnosis : Option String
  notes : Option String
  override_flags : List (String × JsonVal)
  follow_up_recommended : Bool
  follow_up_notes : Option String
  follow_up_date : Option Nat
  signed_off : Bool
  signed_off_at : Option Nat
  created_at : Nat
  updated_at : Nat
deriving DecidableEq

/-- Annot.sign_off (models/annotation.py lines 62-66): sets
signed_off = True and signed_off_at = datetime.utcnow(); the current time
is passed explicitly. -/
def Annot.sign_off (a : Annot) (now : Nat) : Annot :=
  { a with signed_off := true, signed_off_at := some now }

/-- AuditLog model (models/audit.py). -/
structure AuditLog where
  id : String
  user_id : Option String
  user_email : Option String
  action : String
  resource_type : Option String
  resource_id : Option String
  details : List (String × JsonVal)
  ip_address : Option String
  user_agent : Option String
  request_id : Option String
  severity : String
  timestamp : Nat
deriving DecidableEq

/-- AuditLog.log_action (models/audit.py lines 59-74): builds the entry
added to the session; the uuid default and utcnow are passed explicitly. -/
def AuditLog.log_action (logId : String) (action : String) (user : Option User)
    (resource_type resource_id : Option String) (details : List (String × JsonVal))
    (ip_address : Option String) (severity : String) (now : Nat) : AuditLog :=
  { id := logId,
    user_id := user.map (fun u => u.id),
    user_email := user.map (fun u => u.email),
    action := action,
    resource_type := resource_type,
    resource_id := resource_id,
    details := details,
    ip_address := ip_address,
    user_agent := none,
    request_id := none,
    severity := severity,
    timestamp := now }

/-- Database state: one list per table, in insertion order. -/
structure DB where
  patients : List Patient
  screenings : List Screening
  images : List ScreeningImage
  samples : List Sample
  ai_results : List AIResult
  diagnoses : List Diagnosis
  annotations : List Annot
  audit_logs : List AuditLog
deriving DecidableEq

/-- Replace the first element satisfying p, mirroring an in-place update of
the row returned by query(...).filter(...).first(). -/
def updateFirst (p : α → Bool) (f : α → α) : List α → List α
  | [] => []
  | x :: xs => if p x then f x :: xs else x :: updateFirst p f xs

theorem find?_updateFirst (p : α → Bool) (f : α → α) (l : List α)
    (hf : ∀ a, p a = true → p (f a) = true) :
    (updateFirst p f l).find? p = (l.find? p).map f := by
  induction l with
  | nil => rfl
  | cons x xs ih =>
    by_cases hx : p x = true
    · simp [updateFirst, hx, List.find?_cons_of_pos, hf x hx]
    · simp only [Bool.not_eq_true] at hx
      simp [updateFirst, hx, List.find?_cons_of_neg, ih]

theorem mem_updateFirst_or_found (p : α → Bool) (f : α → α) (l : List α) (x : α)
    (hx : x ∈ l) : x ∈ updateFirst p f l ∨ l.find? p = some x := by
  induction l with
  | nil => cases hx
  | cons h t ih =>
    by_cases hh : p h = true
    · rcases List.mem_cons.mp hx with rfl | hxt
      · exact Or.inr (by simp [List.find?_cons_of_pos, hh])
      · exact Or.inl (by simp [updateFirst, hh, List.mem_cons, hxt])
    · simp only [Bool.not_eq_true] at hh
      rcases List.mem_cons.mp hx with rfl | hxt
      · exact Or.inl (by simp [updateFirst, hh])
      · rcases ih hxt with hmem | hfound
        · exact Or.inl (by simp [updateFirst, hh, List.mem_cons, hmem])
        · exact Or.inr (by simp [List.find?_cons_of_neg, hh, hfound])

/-! Service layer for the clinician mark-up records
(services/annotation_service.py). -/

/-- AnnotationCreate schema (schemas/annotation.py). -/
structure AnnotCreate where
  result_id : String
  agrees_with_ai : Option Bool
  clinician_diagnosis : Option String
  notes : Option String
  override_flags : Option (List (String × JsonVal))
  follow_up_recommended : Bool
  follow_up_notes : Option String
  follow_up_date : Option Nat
deriving DecidableEq

/-- AnnotationUpdate schema (schemas/annotation.py); a field set to none
was not provided in the request (model_dump(exclude_unset=True)). -/
structure AnnotUpdate where
  agrees_with_ai : Option Bool
  clinician_diagnosis : Option String
  notes : Option String
  override_flags : Option (List (String × JsonVal))
  follow_up_recommended : Option Bool
  follow_up_notes : Option String
  follow_up_date : Option Nat
deriving DecidableEq

/-- Optional JSON value for the details payloads: None becomes JSON null. -/
def jsonOfOptBool : Option Bool → JsonVal
  | none => JsonVal.null
  | some b => JsonVal.bool b

/-- Optional JSON value for the details payloads: None becomes JSON null. -/
def jsonOfOptStr : Option String → JsonVal
  | none => JsonVal.null
  | some s => JsonVal.str s

namespace AnnotService

/-- AnnotationService._log_action (services/annotation_service.py lines
115-127): appends an AuditLog row with resource_type "annotation" and
commits, but only when a current user is attached. -/
def log_action (db : DB) (user : Option User) (action : String)
    (resource_id : String) (details : List (String × JsonVal))
    (severity : String) (now : Nat) (logId : String) : DB :=
  match user with
  | none => db
  | some u =>
      { db with audit_logs := db.audit_logs ++
          [ AuditLog.log_action logId action (some u) (some "annotation")
              (some resource_id) details none severity now ] }

/-- AnnotationService.create_annotation (services/annotation_service.py
lines 20-42): inserts the new record, commits, then logs
"annotation.create". -/
def create_annot (db : DB) (user : Option User) (data : AnnotCreate)
    (annId : String) (now : Nat) (logId : String) : DB × Annot :=
  let a : Annot :=
    { id := annId,
      result_id := data.result_id,
      clinician_id := user.map (fun u => u.id),
      agrees_with_ai := data.agrees_with_ai,
      clinician_diagnosis := data.clinician_diagnosis,
      notes := data.notes,
      override_flags := data.override_flags.getD [],
      follow_up_recommended := data.follow_up_recommended,
      follow_up_notes := data.follow_up_notes,
      follow_up_date := data.follow_up_date,
      signed_off := false,
      signed_off_at := none,
      created_at := now,
      updated_at := now }
  let db1 : DB := { db with annotations := db.annotations ++ [a] }
  let db2 := log_action db1 user "annotation.create" a.id
    [("agrees_with_ai", jsonOfOptBool a.agrees_with_ai),
     ("clinician_diagnosis", jsonOfOptStr a.clinician_diagnosis)] "info" now logId
  (db2, a)

/-- AnnotationService.review_diagnosis (services/annotation_service.py
lines 44-81): finds the diagnosis, writes the clinician review fields, sets
diagnosis.status and the owning screening.status to "completed"
unconditionally, commits, then logs "diagnosis.review" with severity
critical. -/
def review_diagnosis (db : DB) (user : Option User) (diagnosis_id : String)
    (agrees_with_ai : Bool) (clinician_diagnosis : String)
    (clinician_notes : Option String) (follow_up_recommended : Bool)
    (follow_up_notes : Option String) (now : Nat) (logId : String) :
    DB × Option Diagnosis :=
  match db.diagnoses.find? (fun d => d.id == diagnosis_id) with
  | none => (db, none)
  | some d =>
      let upd : Diagnosis → Diagnosis := fun x =>
        { x with clinician_diagnosis := some clinician_diagnosis,
                 clinician_notes := clinician_notes,
                 agrees_with_ai := some agrees_with_ai,
                 reviewed_by_id := user.map (fun u => u.id),
                 reviewed_at := some now,
                 follow_up_recommended := follow_up_recommended,
                 follow_up_notes := follow_up_notes,
                 status := some "completed" }
      let db1 : DB :=
        { db with diagnoses := updateFirst (fun x => x.id == diagnosis_id) upd db.diagnoses,
                  screenings :=
                    if (db.screenings.find? (fun s => s.id == d.screening_id)).isSome then
                      updateFirst (fun s => s.id == d.screening_id)
                        (fun s => { s with status := "completed" }) db.screenings
                    else db.screenings }
      let db2 := log_action db1 user "diagnosis.review" d.id
        [("agrees_with_ai", JsonVal.bool agrees_with_ai),
         ("clinician_diagnosis", JsonVal.str clinician_diagnosis),
         ("follow_up", JsonVal.bool follow_up_recommended)] "critical" now logId
      (db2, some (upd d))

/-- AnnotationService.sign_off_annotation (services/annotation_service.py
lines 83-98): a missing record returns None; an already signed record is
returned unchanged before any write or audit call; otherwise the record is
signed, committed, and "annotation.sign_off" is logged with severity
critical. -/
def sign_off_annot (db : DB) (user : Option User) (annot_id : String)
    (now : Nat) (logId : String) : DB × Option Annot :=
  match db.annotations.find? (fun a => a.id == annot_id) with
  | none => (db, none)
  | some a =>
      if a.signed_off then
        (db, some a)
      else
        let db1 : DB :=
          { db with
              annotations :=
                updateFirst (fun x => x.id == annot_id) (fun x => x.sign_off now)
                  db.annotations }
        let db2 := log_action db1 user "annotation.sign_off" a.id [] "critical" now logId
        (db2, some (a.sign_off now))

end AnnotService

/-! Route layer for the clinician mark-up records
(api/routes/annotations.py). -/

/-- Error outcomes of the PATCH route (api/routes/annotations.py lines
78-99): notFound is HTTPException 404 "Annotation not found";
annotationLocked is HTTPException 400 "Cannot update signed-off
annotation". -/
inductive UpdateAnnotError where
  | notFound : UpdateAnnotError
  | annotationLocked : UpdateAnnotError
deriving DecidableEq

/-- Field-by-field setattr loop of the PATCH route: each field present in
the request body overwrites the stored one. -/
def applyAnnotUpdate (a : Annot) (u : AnnotUpdate) : Annot :=
  { a with
      agrees_with_ai := match u.agrees_with_ai with
        | some v => some v | none => a.agrees_with_ai,
      clinician_diagnosis := match u.clinician_diagnosis with
        | some v => some v | none => a.clinician_diagnosis,
      notes := match u.notes with
        | some v => some v | none => a.notes,
      override_flags := match u.override_flags with
        | some v => v | none => a.override_flags,
      follow_up_recommended := match u.follow_up_recommended with
        | some v => v | none => a.follow_up_recommended,
      follow_up_notes := match u.follow_up_notes with
        | some v => some v | none => a.follow_up_notes,
      follow_up_date := match u.follow_up_date with
        | some v => some v | none => a.follow_up_date }

/-- PATCH route update handler (api/routes/annotations.py lines 78-99):
404 when the record is missing, 400 when it is already signed off (before
any field is written), otherwise apply every provided field and commit. -/
def update_annot (db : DB) (annot_id : String) (upd : AnnotUpdate) :
    Except UpdateAnnotError (DB × Annot) :=
  match db.annotations.find? (fun a => a.id == annot_id) with
  | none => Except.error UpdateAnnotError.notFound
  | some a =>
      if a.signed_off then
        Except.error UpdateAnnotError.annotationLocked
      else
        let db1 : DB :=
          { db with
              annotations :=
                updateFirst (fun x => x.id == annot_id)
                  (fun x => applyAnnotUpdate x upd) db.annotations }
        Except.ok (db1, applyAnnotUpdate a upd)

/-! AI result service (services/ai_result_service.py). -/

/-- DIAGNOSIS_CATEGORIES (services/ai_result_service.py lines 15-25), in
source order; the accompanying source comments read, in order: negative,
undetermined atypia, atypia cannot exclude high grade, low-grade lesion,
high-grade lesion, squamous carcinoma, glandular atypia, adenocarcinoma,
unsatisfactory. -/
def DIAGNOSIS_CATEGORIES : List String :=
  ["nilm", "asc_us", "asc_h", "lsil", "hsil", "scc", "agc",
   "adenocarcinoma", "unsatisfactory"]

/-- Helper for pyMaxKey: keeps the current best key and value, replacing
them only on a strictly greater value, as Python max does. -/
def pyMaxKeyGo (bestK : String) (bestV : ℚ) : List (String × ℚ) → String
  | [] => bestK
  | (k, v) :: rest => if bestV < v then pyMaxKeyGo k v rest else pyMaxKeyGo bestK bestV rest

/-- Primary-prediction selection (services/ai_result_service.py line 132):
primary = max(scores, key=scores.get), where scores is a dict iterated in
insertion order; the embedding takes the association list in that order and
returns the first key attaining the maximal value. -/
def pyMaxKey : List (String × ℚ) → Option String
  | [] => none
  | (k, v) :: rest => some (pyMaxKeyGo k v rest)

/-- Output record of AIResultService._simulate_ai_inference
(services/ai_result_service.py lines 115-146): the score map (in
DIAGNOSIS_CATEGORIES insertion order), the selected primary and its
confidence, and the notes; the diagnosis JSON reuses primary and scores. -/
structure InferenceOutput where
  confidence_scores : List (String × ℚ)
  primary_prediction : String
  primary_confidence : ℚ
  ai_notes : String
deriving DecidableEq

/-- Exception raised by SQLAlchemy's declarative constructor when a
keyword argument names no declared attribute of the model class
(invalid keyword argument for the class). -/
inductive PyTypeError where
  | invalidKeyword (cls kw : String) : PyTypeError
deriving DecidableEq

namespace AIResultService

/-- AIResultService._log_action (services/ai_result_service.py lines
148-159): appends an AuditLog row with resource_type "ai_result" and
default severity info, then commits, but only when a user is attached. -/
def log_action (db : DB) (user : Option User) (action : String)
    (resource_id : String) (details : List (String × JsonVal))
    (now : Nat) (logId : String) : DB :=
  match user with
  | none => db
  | some u =>
      { db with audit_logs := db.audit_logs ++
          [ AuditLog.log_action logId action (some u) (some "ai_result")
              (some resource_id) details none "info" now ] }

/-- Screening branch of AIResultService.run_analysis
(services/ai_result_service.py lines 38-69).  A missing screening returns
None with no commits.  An existing screening reaches the constructor call
Diagnosis(screening_id=..., ai_prediction=..., ai_confidence=...,
ai_notes=..., status="pending_review") at lines 49-55; the Diagnosis model
(models/diagnosis.py) declares no status column, and the declarative
constructor rejects unknown keyword arguments, so the call raises
TypeError before anything is added to the session: the branch never
commits, never creates a Diagnosis, and never touches the screening
status.  The simulated inference output is passed in; it is computed
before the constructor call and discarded by the failure. -/
def run_analysis_screening (db : DB) (_user : Option User) (screening_id : String)
    (_inf : InferenceOutput) (_diagId : String) (_now : Nat) (_logId : String) :
    List DB × Except PyTypeError (Option Diagnosis) :=
  match db.screenings.find? (fun s => s.id == screening_id) with
  | none => ([], Except.ok none)
  | some _ => ([], Except.error (PyTypeError.invalidKeyword "Diagnosis" "status"))

/-- Sample branch of AIResultService.run_analysis
(services/ai_result_service.py lines 71-103).  The returned list holds the
successive committed snapshots: the first commit (line 95) makes the new
AIResult and the "analyzed" sample status durable; the second commit,
inside _log_action, adds the audit row and happens only when a user is
attached. -/
def run_analysis_sample (db : DB) (user : Option User) (sample_id : String)
    (inf : InferenceOutput) (resId : String) (now : Nat) (logId : String) :
    List DB × Option AIResult :=
  match db.samples.find? (fun s => s.id == sample_id) with
  | none => ([], none)
  | some _ =>
      let ai_result : AIResult :=
        { id := resId,
          sample_id := sample_id,
          diagnosis_primary := inf.primary_prediction,
          diagnosis_raw_predictions := inf.confidence_scores,
          confidence_scores := inf.confidence_scores,
          primary_prediction := some inf.primary_prediction,
          primary_confidence := some inf.primary_confidence,
          heatmap_path := none,
          model_version := some "1.0.0",
          model_name := some "CervixAI-ResNet50",
          ai_notes := some inf.ai_notes }
      let db1 : DB :=
        { db with ai_results := db.ai_results ++ [ai_result],
                  samples :=
                    updateFirst (fun s => s.id == sample_id)
                      (fun s => { s with status := "analyzed" }) db.samples }
      let db2 := log_action db1 user "ai_result.create" ai_result.id
        [("prediction", JsonVal.str inf.primary_prediction),
         ("confidence", JsonVal.num inf.primary_confidence)] now logId
      (db1 :: (if user.isSome then [db2] else []), some ai_result)

end AIResultService

/-! Analyze route (api/routes/diagnoses.py). -/

/-- Error outcomes of the analyze route (api/routes/diagnoses.py lines
78-158): screeningNotFound is 404 "Screening not found"; noImages is 400
"No images uploaded for this screening"; alreadyAnalyzed is 400 "AI
analysis already completed for this screening"; auditTypeError is the
TypeError raised at lines 141-147 when the route constructs
AuditLog(..., entity_type=..., entity_id=...) although the AuditLog model
(models/audit.py) declares no entity_type or entity_id column — it
escapes the handler after the first commit. -/
inductive AnalyzeRouteError where
  | screeningNotFound : AnalyzeRouteError
  | noImages : AnalyzeRouteError
  | alreadyAnalyzed : AnalyzeRouteError
  | auditTypeError : AnalyzeRouteError
deriving DecidableEq

/-- Python truthiness of an optional string column: false for None and for
the empty string. -/
def optStrTruthy : Option String → Bool
  | none => false
  | some s => !s.isEmpty

/-- Analyze route handler run_ai_analysis (api/routes/diagnoses.py lines
78-158): 404 on a missing screening; 400 when no image rows exist; 400
"already completed" when a diagnosis row for the screening already carries
an AI prediction, whatever the review or sign-off state.  Past those
guards the route writes the mock prediction into the (new or existing)
diagnosis row, sets the screening status to "ai_analyzed" and commits —
the single durable snapshot in the returned list — and then constructs
AuditLog(..., entity_type="diagnosis", entity_id=...): the AuditLog model
declares no entity_type or entity_id column, so the declarative
constructor raises TypeError, the audit row is never written, and the
handler never returns a success response.  The heatmap file side effects
are not modelled. -/
def run_ai_analysis (db : DB) (_current_user : User) (screening_id : String)
    (prediction : String) (confidence : ℚ) (notes : String)
    (diagId : String) (now : Nat) :
    List DB × Except AnalyzeRouteError Diagnosis :=
  match db.screenings.find? (fun s => s.id == screening_id) with
  | none => ([], Except.error AnalyzeRouteError.screeningNotFound)
  | some _ =>
      let images := db.images.filter (fun im => im.screening_id == screening_id)
      if images.isEmpty then
        ([], Except.error AnalyzeRouteError.noImages)
      else
        let existing := db.diagnoses.find? (fun d => d.screening_id == screening_id)
        match existing with
        | some e =>
            if optStrTruthy e.ai_prediction then
              ([], Except.error AnalyzeRouteError.alreadyAnalyzed)
            else
              let upd : Diagnosis → Diagnosis := fun x =>
                { x with ai_prediction := some prediction,
                         ai_confidence := some confidence,
                         ai_notes := some notes,
                         ai_analysis_date := some now }
              let db1 : DB :=
                { db with
                    diagnoses :=
                      updateFirst (fun d => d.screening_id == screening_id) upd db.diagnoses,
                    screenings :=
                      updateFirst (fun s => s.id == screening_id)
                        (fun s => { s with status := "ai_analyzed" }) db.screenings }
              ([db1], Except.error AnalyzeRouteError.auditTypeError)
        | none =>
            let diagnosis : Diagnosis :=
              { id := diagId,
                screening_id := screening_id,
                ai_prediction := some prediction,
                ai_confidence := some confidence,
                ai_analysis_date := some now,
                ai_notes := some notes,
                reviewer_id := none,
                clinician_agrees_with_ai := none,
                clinician_diagnosis := none,
                clinician_notes := none,
                review_date := none,
                final_diagnosis := none,
                final_notes := none,
                finalized_at := none,
                follow_up_recommended := false,
                follow_up_notes := none,
                status := none,
                reviewed_by_id := none,
                reviewed_at := none,
                agrees_with_ai := none }
            let db1 : DB :=
              { db with
                  diagnoses := db.diagnoses ++ [diagnosis],
                  screenings :=
                    updateFirst (fun s => s.id == screening_id)
                      (fun s => { s with status := "ai_analyzed" }) db.screenings }
            ([db1], Except.error AnalyzeRouteError.auditTypeError)

/-! Patient service (services/patient_service.py). -/

/-- Field-by-field setattr loop of PatientService.update_patient: each
field present in the request body overwrites the stored one. -/
def applyPatientUpdate (p : Patient) (u : PatientUpdate) : Patient :=
  { p with
      first_name := match u.first_name with
        | some v => v | none => p.first_name,
      last_name := match u.last_name with
        | some v => v | none => p.last_name,
      email := match u.email with
        | some v => some v | none => p.email,
      phone := match u.phone with
        | some v => some v | none => p.phone,
      notes := match u.notes with
        | some v => some v | none => p.notes,
      consent_given := match u.consent_given with
        | some v => v | none => p.consent_given }

/-- Keys of the fields present in a PatientUpdate body, in schema order,
as list(update_data.keys()) yields them. -/
def PatientUpdate.updated_fields (u : PatientUpdate) : List String :=
  (if u.first_name.isSome then ["first_name"] else []) ++
  (if u.last_name.isSome then ["last_name"] else []) ++
  (if u.email.isSome then ["email"] else []) ++
  (if u.phone.isSome then ["phone"] else []) ++
  (if u.notes.isSome then ["notes"] else []) ++
  (if u.consent_given.isSome then ["consent_given"] else [])

namespace PatientService

/-- PatientService._log_action (services/patient_service.py lines
114-125): appends an AuditLog row with resource_type "patient" and
commits, but only when a current user is attached. -/
def log_action (db : DB) (user : Option User) (action : String)
    (resource_id : String) (details : List (String × JsonVal))
    (now : Nat) (logId : String) : DB :=
  match user with
  | none => db
  | some u =>
      { db with audit_logs := db.audit_logs ++
          [ AuditLog.log_action logId action (some u) (some "patient")
              (some resource_id) details none "info" now ] }

/-- PatientService.create_patient (services/patient_service.py lines
20-38): inserts the row built from the request fields, commits, then logs
"patient.create". -/
def create_patient (db : DB) (user : Option User) (data : PatientCreate)
    (pid : String) (now : Nat) (logId : String) : DB × Patient :=
  let patient : Patient :=
    { id := pid,
      first_name := data.first_name,
      last_name := data.last_name,
      date_of_birth := data.date_of_birth,
      gender := none,
      contact_info := [],
      email := data.email,
      phone := data.phone,
      medical_record_number := data.medical_record_number,
      consent_given := data.consent_given,
      consent_date := none,
      notes := none,
      risk_factors := [],
      is_active := true }
  let db1 : DB := { db with patients := db.patients ++ [patient] }
  (log_action db1 user "patient.create" patient.id [] now logId, patient)

/-- PatientService.get_patient_by_id (services/patient_service.py lines
40-45): looks the row up and, when it exists, logs a "patient.view" audit
entry before returning it. -/
def get_patient_by_id (db : DB) (user : Option User) (patient_id : String)
    (now : Nat) (logId : String) : DB × Option Patient :=
  match db.patients.find? (fun p => p.id == patient_id) with
  | none => (db, none)
  | some p => (log_action db user "patient.view" p.id [] now logId, some p)

/-- PatientService.update_patient (services/patient_service.py lines
71-86): fetches the row through get_patient_by_id (which logs
"patient.view"), applies the provided fields, commits, then logs
"patient.update" with the list of updated field names. -/
def update_patient (db : DB) (user : Option User) (patient_id : String)
    (data : PatientUpdate) (now : Nat) (logViewId logUpdId : String) :
    DB × Option Patient :=
  match get_patient_by_id db user patient_id now logViewId with
  | (db0, none) => (db0, none)
  | (db0, some p) =>
      let p1 := applyPatientUpdate p data
      let db1 : DB :=
        { db0 with
            patients :=
              updateFirst (fun x => x.id == patient_id)
                (fun x => applyPatientUpdate x data) db0.patients }
      let db2 := log_action db1 user "patient.update" p.id
        [("updated_fields", JsonVal.strs data.updated_fields)] now logUpdId
      (db2, some p1)

/-- PatientService.delete_patient (services/patient_service.py lines
88-99): fetches the row through get_patient_by_id (which logs
"patient.view"), soft-deletes it by clearing is_active, commits, then logs
"patient.delete". -/
def delete_patient (db : DB) (user : Option User) (patient_id : String)
    (now : Nat) (logViewId logDelId : String) : DB × Bool :=
  match get_patient_by_id db user patient_id now logViewId with
  | (db0, none) => (db0, false)
  | (db0, some p) =>
      let db1 : DB :=
        { db0 with
            patients :=
              updateFirst (fun x => x.id == patient_id)
                (fun x => { x with is_active := false }) db0.patients }
      let db2 := log_action db1 user "patient.delete" p.id [] now logDelId
      (db2, true)

end PatientService

/-! Audit query service (services/audit_service.py). -/

/-- Optional filters of AuditService.get_logs, in source parameter
order. -/
structure LogFilters where
  action : Option String
  resource_type : Option String
  resource_id : Option String
  user_id : Option String
  start_date : Option Nat
  end_date : Option Nat
  severity : Option String
deriving DecidableEq

/-- Conjunction of the filter clauses of AuditService.get_logs
(services/audit_service.py lines 60-73); an absent filter matches every
row. -/
def matchesFilters (f : LogFilters) (log : AuditLog) : Bool :=
  (match f.action with | none => true | some a => log.action == a) &&
  (match f.resource_type with | none => true | some t => log.resource_type == some t) &&
  (match f.resource_id with | none => true | some i => log.resource_id == some i) &&
  (match f.user_id with | none => true | some uid => log.user_id == some uid) &&
  (match f.severity with | none => true | some s => log.severity == s) &&
  (match f.start_date with | none => true | some s => s ≤ log.timestamp) &&
  (match f.end_date with | none => true | some e => log.timestamp ≤ e)

/-- Insert one row into a list sorted by timestamp descending, after every
row whose timestamp is at least as large; used to model ORDER BY
timestamp DESC, which sorts on the timestamp alone. -/
def insertTsDesc (e : AuditLog) : List AuditLog → List AuditLog
  | [] => [e]
  | x :: xs => if e.timestamp ≤ x.timestamp then x :: insertTsDesc e xs else e :: x :: xs

/-- Stable sort by timestamp descending: rows are inserted left to right,
so rows with equal timestamps keep their underlying table order, as the
single-key ORDER BY leaves their relative order to the storage layer. -/
def sortTsDesc (l : List AuditLog) : List AuditLog :=
  l.foldl (fun acc e => insertTsDesc e acc) []

/-- AuditService.get_logs (services/audit_service.py lines 45-78): apply
the filters, count the filtered rows, order by timestamp descending only,
then apply offset skip and limit; returns the page and the total. -/
def AuditService.get_logs (logs : List AuditLog) (f : LogFilters)
    (skip limit : Nat) : List AuditLog × Nat :=
  let filtered := logs.filter (matchesFilters f)
  let total := filtered.length
  (((sortTsDesc filtered).drop skip).take limit, total)

/-! Specification-side model of the primary-label tie-break policy. -/

/-- Modelled from the spec: the fixed clinical-severity ordering that
section 4.3 prescribes for breaking exact confidence ties ("most severe
category wins").  The spec never spells the ordering out; this model ranks
a label by its position in DIAGNOSIS_CATEGORIES, whose source comments
list the squamous series in ascending grade (negative, undetermined
atypia, atypia cannot exclude high grade, low-grade lesion, high-grade
lesion, carcinoma).  The theorems about this model only exercise the
squamous series, where that reading is unambiguous; in particular they
only rely on the negative category ranking strictly below the high-grade
lesion category. -/
def severityRank (label : String) : Nat :=
  (DIAGNOSIS_CATEGORIES.indexOf label)

/-- Modelled from the spec: primary-label selection as section 4.3 states
it — maximum confidence, exact ties broken towards the label of highest
severityRank. -/
def spec_primary_pair : List (String × ℚ) → Option (String × ℚ)
  | [] => none
  | (k, v) :: rest =>
      match spec_primary_pair rest with
      | none => some (k, v)
      | some (k2, v2) =>
          if v2 < v ∨ (v2 = v ∧ severityRank k2 < severityRank k) then some (k, v)
          else some (k2, v2)

/-- Modelled from the spec: the label component of the section 4.3
selection policy. -/
def spec_primary (l : List (String × ℚ)) : Option String :=
  (spec_primary_pair l).map Prod.fst

/-! Concrete fixtures used by witnesses and counterexamples. -/

/-- A pathologist user linked to the seeded pathologist role. -/
def user0 : User :=
  { id := "u1", email := "doc@example.org", role := "pathologist",
    role_ref := some pathologist_role }

/-- A not-yet-signed clinician record on AI result r1. -/
def annotUnsigned : Annot :=
  { id := "a1", result_id := "r1", clinician_id := some "u1",
    agrees_with_ai := some true, clinician_diagnosis := some "hsil",
    notes := none, override_flags := [], follow_up_recommended := false,
    follow_up_notes := none, follow_up_date := none, signed_off := false,
    signed_off_at := none, created_at := 1, updated_at := 1 }

/-- A signed-off clinician record on AI result r1. -/
def annotSigned : Annot :=
  { annotUnsigned with id := "a2", signed_off := true, signed_off_at := some 2 }

/-- The empty database. -/
def emptyDB : DB :=
  { patients := [], screenings := [], images := [], samples := [],
    ai_results := [], diagnoses := [], annotations := [], audit_logs := [] }

/-! Small equation lemmas about the service helpers. -/

theorem log_action_annot_annotations (db : DB) (user : Option User) (act rid : String)
    (det : List (String × JsonVal)) (sev : String) (now : Nat) (lid : String) :
    (AnnotService.log_action db user act rid det sev now lid).annotations = db.annotations := by
  cases user <;> rfl

theorem log_action_annot_screenings (db : DB) (user : Option User) (act rid : String)
    (det : List (String × JsonVal)) (sev : String) (now : Nat) (lid : String) :
    (AnnotService.log_action db user act rid det sev now lid).screenings = db.screenings := by
  cases user <;> rfl

theorem sign_off_annot_of_none (db : DB) (user : Option User) (i : String)
    (now : Nat) (lid : String)
    (h : db.annotations.find? (fun a => a.id == i) = none) :
    AnnotService.sign_off_annot db user i now lid = (db, none) := by
  unfold AnnotService.sign_off_annot
  rw [h]

theorem sign_off_annot_of_signed (db : DB) (user : Option User) (i : String)
    (now : Nat) (lid : String) (a : Annot)
    (h : db.annotations.find? (fun a => a.id == i) = some a)
    (hs : a.signed_off = true) :
    AnnotService.sign_off_annot db user i now lid = (db, some a) := by
  unfold AnnotService.sign_off_annot
  rw [h]
  simp [hs]

theorem sign_off_annot_of_unsigned (db : DB) (user : Option User) (i : String)
    (now : Nat) (lid : String) (a : Annot)
    (h : db.annotations.find? (fun a => a.id == i) = some a)
    (hs : a.signed_off = false) :
    AnnotService.sign_off_annot db user i now lid =
      (AnnotService.log_action
        { db with
            annotations :=
              updateFirst (fun x => x.id == i) (fun x => x.sign_off now) db.annotations }
        user "annotation.sign_off" a.id [] "critical" now lid,
       some (a.sign_off now)) := by
  unfold AnnotService.sign_off_annot
  rw [h]
  simp [hs]

/-- Claim C2: sign-off is idempotent.  A second call to
AnnotationService.sign_off_annotation after a successful first call returns
the very same pair of database state and signed record: the record keeps
its signed_off flag and signed_off_at timestamp, the call takes the early
return branch rather than raising, and because the database is returned
unchanged no further audit entry — duplicate or otherwise — is written for
the repeat. -/
theorem C2_sign_off_idempotent (db : DB) (user : Option User) (i : String)
    (now now2 : Nat) (lid lid2 : String) (db1 : DB) (a1 : Annot)
    (h : AnnotService.sign_off_annot db user i now lid = (db1, some a1)) :
    AnnotService.sign_off_annot db1 user i now2 lid2 = (db1, some a1) := by
  cases hf : db.annotations.find? (fun a => a.id == i) with
  | none =>
      rw [sign_off_annot_of_none db user i now lid hf] at h
      simp only [Prod.mk.injEq] at h
      exact absurd h.2 (by simp)
  | some a =>
      cases hs : a.signed_off with
      | true =>
          rw [sign_off_annot_of_signed db user i now lid a hf hs] at h
          simp only [Prod.mk.injEq, Option.some.injEq] at h
          obtain ⟨rfl, rfl⟩ := h
          exact sign_off_annot_of_signed _ user i now2 lid2 _ hf hs
      | false =>
          rw [sign_off_annot_of_unsigned db user i now lid a hf hs] at h
          simp only [Prod.mk.injEq, Option.some.injEq] at h
          obtain ⟨rfl, rfl⟩ := h
          refine sign_off_annot_of_signed _ user i now2 lid2 _ ?_ rfl
          rw [log_action_annot_annotations]



          rw [find?_updateFirst (fun x => x.id == i) (fun x => x.sign_off now)
            db.annotations (fun x hx => hx), hf]
          rfl

/-- Database holding the single unsigned record a1, for the C2 witness. -/
def dbC2 : DB := { emptyDB with annotations := [annotUnsigned] }

/-- Database state after the first successful sign-off of a1 in dbC2. -/
def dbC2s : DB :=
  { emptyDB with
      annotations := [ annotUnsigned.sign_off 5 ],
      audit_logs :=
        [ AuditLog.log_action "L1" "annotation.sign_off" (some user0)
            (some "annotation") (some "a1") [] none "critical" 5 ] }

/-- Witness for C2 at a concrete database: the first sign-off of a1
succeeds and the second call returns the identical state and record. -/
theorem C2_witness :
    AnnotService.sign_off_annot dbC2 (some user0) "a1" 5 "L1" =
      (dbC2s, some (annotUnsigned.sign_off 5)) ∧
    AnnotService.sign_off_annot dbC2s (some user0) "a1" 9 "L2" =
      (dbC2s, some (annotUnsigned.sign_off 5)) :=
  ⟨by decide,
   C2_sign_off_idempotent dbC2 (some user0) "a1" 5 9 "L1" "L2" dbC2s
     (annotUnsigned.sign_off 5) (by decide)⟩

theorem update_annot_of_none (db : DB) (i : String) (upd : AnnotUpdate)
    (h : db.annotations.find? (fun x => x.id == i) = none) :
    update_annot db i upd = Except.error UpdateAnnotError.notFound := by
  unfold update_annot
  rw [h]

theorem update_annot_of_signed (db : DB) (i : String) (upd : AnnotUpdate) (a : Annot)
    (h : db.annotations.find? (fun x => x.id == i) = some a)
    (hs : a.signed_off = true) :
    update_annot db i upd = Except.error UpdateAnnotError.annotationLocked := by
  unfold update_annot
  rw [h]
  simp [hs]

theorem update_annot_of_unsigned (db : DB) (i : String) (upd : AnnotUpdate) (a : Annot)
    (h : db.annotations.find? (fun x => x.id == i) = some a)
    (hs : a.signed_off = false) :
    update_annot db i upd =
      Except.ok
        ({ db with
             annotations :=
               updateFirst (fun x => x.id == i) (fun x => applyAnnotUpdate x upd)
                 db.annotations },
         applyAnnotUpdate a upd) := by
  unfold update_annot
  rw [h]
  simp [hs]

/-- Claim C3: editing after sign-off is rejected.  Whenever the record
addressed by the PATCH route is already signed off, the route fails with
the locked error (HTTPException 400 "Cannot update signed-off annotation",
the spec's AnnotationLocked) for every possible update body, before any
field is applied, so the stored record is left unchanged. -/
theorem C3_update_locked (db : DB) (i : String) (upd : AnnotUpdate) (a : Annot)
    (h : db.annotations.find? (fun x => x.id == i) = some a)
    (hs : a.signed_off = true) :
    update_annot db i upd = Except.error UpdateAnnotError.annotationLocked := by
  unfold update_annot
  rw [h]
  simp [hs]

/-- Database holding the single signed record a2, for the C3 witness. -/
def dbC3 : DB := { emptyDB with annotations := [annotSigned] }

/-- An update body touching every updatable field, for the C3 witness. -/
def updAll : AnnotUpdate :=
  { agrees_with_ai := some false, clinician_diagnosis := some "nilm",
    notes := some "edited", override_flags := some [("diagnosis_override", JsonVal.bool true)],
    follow_up_recommended := some true, follow_up_notes := some "call back",
    follow_up_date := some 99 }

/-- Witness for C3 at a concrete database: updating the signed record a2
with a body touching every field yields the locked error. -/
theorem C3_witness :
    update_annot dbC3 "a2" updAll = Except.error UpdateAnnotError.annotationLocked :=
  C3_update_locked dbC3 "a2" updAll annotSigned (by decide) rfl

/-- Claim C10: sign-off is monotone and terminal at the model level.  The
model method sign_off always sets signed_off and records the passed
timestamp; every operation the service and route layer expose — create,
sign-off, the PATCH update, and the review flow — preserves every already
signed-off record exactly as stored (the sign-off early-returns, the
update is rejected before writing, creation only appends, and the review
flow never touches this table), so no exposed operation resets signed_off
or rewrites signed_off_at. -/
theorem C10_sign_off_terminal :
    (∀ (a : Annot) (now : Nat),
        (a.sign_off now).signed_off = true ∧ (a.sign_off now).signed_off_at = some now)
    ∧ (∀ (db : DB) (user : Option User) (data : AnnotCreate) (annId : String)
          (now : Nat) (lid : String) (x : Annot), x ∈ db.annotations →
          x ∈ (AnnotService.create_annot db user data annId now lid).1.annotations)
    ∧ (∀ (db : DB) (user : Option User) (i : String) (now : Nat) (lid : String)
          (x : Annot), x ∈ db.annotations → x.signed_off = true →
          x ∈ (AnnotService.sign_off_annot db user i now lid).1.annotations)
    ∧ (∀ (db : DB) (i : String) (upd : AnnotUpdate) (r : DB × Annot),
          update_annot db i upd = Except.ok r →
          ∀ x ∈ db.annotations, x.signed_off = true → x ∈ r.1.annotations)
    ∧ (∀ (db : DB) (user : Option User) (d_id : String) (ag : Bool) (cd : String)
          (cn : Option String) (fur : Bool) (fn : Option String) (now : Nat) (lid : String),
          (AnnotService.review_diagnosis db user d_id ag cd cn fur fn now lid).1.annotations
            = db.annotations) := by
  refine ⟨fun a now => ⟨rfl, rfl⟩, ?_, ?_, ?_, ?_⟩
  · intro db user data annId now lid x hx
    unfold AnnotService.create_annot
    rw [log_action_annot_annotations]
    exact List.mem_append_left _ hx
  · intro db user i now lid x hx hxs
    cases hf : db.annotations.find? (fun a => a.id == i) with
    | none => rw [sign_off_annot_of_none db user i now lid hf]; exact hx
    | some a =>
        cases hs : a.signed_off with
        | true => rw [sign_off_annot_of_signed db user i now lid a hf hs]; exact hx
        | false =>
            rw [sign_off_annot_of_unsigned db user i now lid a hf hs]
            rw [log_action_annot_annotations]
            rcases mem_updateFirst_or_found (fun x => x.id == i) (fun x => x.sign_off now)
              db.annotations x hx with hmem | hfound
            · exact hmem
            · rw [hf] at hfound
              cases hfound
              rw [hxs] at hs
              cases hs
  · intro db i upd r h x hx hxs
    cases hf : db.annotations.find? (fun x => x.id == i) with
    | none =>
        rw [update_annot_of_none db i upd hf] at h
        exact Except.noConfusion h
    | some a =>
        cases hs : a.signed_off with
        | true =>
            rw [update_annot_of_signed db i upd a hf hs] at h
            exact Except.noConfusion h
        | false =>
            rw [update_annot_of_unsigned db i upd a hf hs] at h
            simp only [Except.ok.injEq] at h
            subst h
            rcases mem_updateFirst_or_found (fun x => x.id == i)
              (fun x => applyAnnotUpdate x upd) db.annotations x hx with hmem | hfound
            · exact hmem
            · rw [hf] at hfound
              cases hfound
              rw [hxs] at hs
              cases hs
  · intro db user d_id ag cd cn fur fn now lid
    unfold AnnotService.review_diagnosis
    cases hf : db.diagnoses.find? (fun d => d.id == d_id) with
    | none => rfl
    | some d => rw [log_action_annot_annotations]

/-- Database holding both the unsigned a1 and the signed a2, for the C10
witness. -/
def dbC10 : DB := { emptyDB with annotations := [annotUnsigned, annotSigned] }

/-- Witness for C10 at concrete inputs: the model method signs and stamps
a1 at time 7; the signed a2 survives a sign-off of a1 unchanged; a2 also
survives a successful PATCH of a1 unchanged. -/
theorem C10_witness :
    ((annotUnsigned.sign_off 7).signed_off = true ∧
      (annotUnsigned.sign_off 7).signed_off_at = some 7) ∧
    annotSigned ∈ (AnnotService.sign_off_annot dbC10 (some user0) "a1" 5 "L1").1.annotations ∧
    annotSigned ∈ (AnnotService.create_annot dbC10 (some user0)
      { result_id := "r1", agrees_with_ai := none, clinician_diagnosis := none,
        notes := none, override_flags := none, follow_up_recommended := false,
        follow_up_notes := none, follow_up_date := none } "a3" 6 "L2").1.annotations :=
  ⟨C10_sign_off_terminal.1 annotUnsigned 7,
   C10_sign_off_terminal.2.2.1 dbC10 (some user0) "a1" 5 "L1" annotSigned
     (by decide) rfl,
   C10_sign_off_terminal.2.1 dbC10 (some user0)
     { result_id := "r1", agrees_with_ai := none, clinician_diagnosis := none,
       notes := none, override_flags := none, follow_up_recommended := false,
       follow_up_notes := none, follow_up_date := none } "a3" 6 "L2" annotSigned
     (by decide)⟩

/-! Claim C1: the completion gate. -/

theorem review_diagnosis_of_found (db : DB) (user : Option User) (d_id : String)
    (ag : Bool) (cd : String) (cn : Option String) (fur : Bool) (fn : Option String)
    (now : Nat) (lid : String) (d : Diagnosis)
    (h : db.diagnoses.find? (fun x => x.id == d_id) = some d) :
    AnnotService.review_diagnosis db user d_id ag cd cn fur fn now lid =
      (AnnotService.log_action
        { db with
            diagnoses :=
              updateFirst (fun x => x.id == d_id)
                (fun x =>
                  { x with clinician_diagnosis := some cd,
                           clinician_notes := cn,
                           agrees_with_ai := some ag,
                           reviewed_by_id := user.map (fun u => u.id),
                           reviewed_at := some now,
                           follow_up_recommended := fur,
                           follow_up_notes := fn,
                           status := some "completed" }) db.diagnoses,
            screenings :=
              if (db.screenings.find? (fun s => s.id == d.screening_id)).isSome then
                updateFirst (fun s => s.id == d.screening_id)
                  (fun s => { s with status := "completed" }) db.screenings
              else db.screenings }
        user "diagnosis.review" d.id
        [("agrees_with_ai", JsonVal.bool ag),
         ("clinician_diagnosis", JsonVal.str cd),
         ("follow_up", JsonVal.bool fur)] "critical" now lid,
       some { d with clinician_diagnosis := some cd,
                     clinician_notes := cn,
                     agrees_with_ai := some ag,
                     reviewed_by_id := user.map (fun u => u.id),
                     reviewed_at := some now,
                     follow_up_recommended := fur,
                     follow_up_notes := fn,
                     status := some "completed" }) := by
  unfold AnnotService.review_diagnosis
  rw [h]

/-- Claim C1, amended: the transition of a screening episode to the
Completed state is performed by review submission alone.  Whenever the
addressed diagnosis exists, AnnotationService.review_diagnosis succeeds
and marks both the diagnosis and its owning screening "completed"; no
property of the annotations table is consulted — the theorem has no
hypothesis about annotations, and the operation leaves that table
untouched — so completion with zero signed-off clinician records is
accepted rather than rejected. -/
theorem C1_review_completes_unconditionally (db : DB) (user : Option User)
    (d_id : String) (ag : Bool) (cd : String) (cn : Option String) (fur : Bool)
    (fn : Option String) (now : Nat) (lid : String) (d : Diagnosis)
    (h : db.diagnoses.find? (fun x => x.id == d_id) = some d) :
    ((AnnotService.review_diagnosis db user d_id ag cd cn fur fn now lid).2).isSome = true
    ∧ (AnnotService.review_diagnosis db user d_id ag cd cn fur fn now lid).1.screenings.find?
        (fun s => s.id == d.screening_id)
        = (db.screenings.find? (fun s => s.id == d.screening_id)).map
            (fun s => { s with status := "completed" })
    ∧ (AnnotService.review_diagnosis db user d_id ag cd cn fur fn now lid).1.annotations
        = db.annotations := by
  rw [review_diagnosis_of_found db user d_id ag cd cn fur fn now lid d h]
  refine ⟨rfl, ?_, ?_⟩
  · rw [log_action_annot_screenings]
    cases hscr : db.screenings.find? (fun s => s.id == d.screening_id) with
    | none => simp [hscr]
    | some s =>
        simp only [Option.isSome_some, if_true]
        rw [find?_updateFirst (fun s => s.id == d.screening_id)
          (fun s => { s with status := "completed" }) db.screenings (fun s hs => hs), hscr]
  · rw [log_action_annot_annotations]

/-- Screening episode under review, for the C1 counterexample. -/
def scr1 : Screening :=
  { id := "s1", patient_id := "p1", status := "under_review",
    clinical_notes := none, reason_for_screening := none }

/-- Diagnosis carrying only an AI prediction, for the C1 counterexample. -/
def diag1 : Diagnosis :=
  { id := "d1", screening_id := "s1", ai_prediction := some "hsil",
    ai_confidence := some (mkRat 9 10), ai_analysis_date := none, ai_notes := none,
    reviewer_id := none, clinician_agrees_with_ai := none,
    clinician_diagnosis := none, clinician_notes := none, review_date := none,
    final_diagnosis := none, final_notes := none, finalized_at := none,
    follow_up_recommended := false, follow_up_notes := none,
    status := some "pending_review", reviewed_by_id := none,
    reviewed_at := none, agrees_with_ai := none }

/-- Database with one screening and one diagnosis and an empty clinician
record table, for the C1 counterexample. -/
def dbC1 : DB := { emptyDB with screenings := [scr1], diagnoses := [diag1] }

/-- Counterexample to C1 as stated: on a database whose clinician record
table is empty — zero signed-off records exist for any AI result of the
case — the review flow still succeeds and moves the screening to
"completed" instead of rejecting the transition. -/
theorem C1_counterexample :
    dbC1.annotations = [] ∧
    ((AnnotService.review_diagnosis dbC1 (some user0) "d1" false "hsil"
        none false none 10 "L1").2).isSome = true ∧
    ((AnnotService.review_diagnosis dbC1 (some user0) "d1" false "hsil"
        none false none 10 "L1").1.screenings.map (fun s => s.status)) = ["completed"] := by
  refine ⟨rfl, by decide, by decide⟩

/-- Witness for the amended C1 at a concrete database: applied to dbC1 the
review succeeds, completes screening s1 and leaves the (empty) clinician
record table untouched. -/
theorem C1_witness :
    ((AnnotService.review_diagnosis dbC1 (some user0) "d1" false "hsil"
        none false none 10 "L1").2).isSome = true
    ∧ (AnnotService.review_diagnosis dbC1 (some user0) "d1" false "hsil"
        none false none 10 "L1").1.screenings.find? (fun s => s.id == diag1.screening_id)
        = (dbC1.screenings.find? (fun s => s.id == diag1.screening_id)).map
            (fun s => { s with status := "completed" })
    ∧ (AnnotService.review_diagnosis dbC1 (some user0) "d1" false "hsil"
        none false none 10 "L1").1.annotations = dbC1.annotations :=
  C1_review_completes_unconditionally dbC1 (some user0) "d1" false "hsil"
    none false none 10 "L1" diag1 (by decide)

/-! Claim C4: primary-label selection and its tie-break. -/

theorem pyMaxKeyGo_of_le (bK : String) (bV : ℚ) (l : List (String × ℚ))
    (h : ∀ kv ∈ l, kv.2 ≤ bV) : pyMaxKeyGo bK bV l = bK := by
  induction l with
  | nil => rfl
  | cons hd tl ih =>
      obtain ⟨k, v⟩ := hd
      have hv : v ≤ bV := h (k, v) (List.mem_cons_self _ _)
      simp only [pyMaxKeyGo, if_neg (not_lt.mpr hv)]
      exact ih (fun kv hkv => h kv (List.mem_cons_of_mem _ hkv))

theorem pyMaxKeyGo_first_max (pre : List (String × ℚ)) (k : String) (v : ℚ)
    (post : List (String × ℚ)) :
    ∀ (bK : String) (bV : ℚ), bV < v → (∀ kv ∈ pre, kv.2 < v) →
    (∀ kv ∈ post, kv.2 ≤ v) → pyMaxKeyGo bK bV (pre ++ (k, v) :: post) = k := by
  induction pre with
  | nil =>
      intro bK bV hb _ hpost
      simp only [List.nil_append, pyMaxKeyGo, if_pos hb]
      exact pyMaxKeyGo_of_le k v post hpost
  | cons hd tl ih =>
      intro bK bV hb hpre hpost
      obtain ⟨a, b⟩ := hd
      have hab : b < v := hpre (a, b) (List.mem_cons_self _ _)
      have htl : ∀ kv ∈ tl, kv.2 < v := fun kv hkv => hpre kv (List.mem_cons_of_mem _ hkv)
      simp only [List.cons_append, pyMaxKeyGo]
      by_cases hc : bV < b
      · rw [if_pos hc]
        exact ih a b hab htl hpost
      · rw [if_neg hc]
        exact ih bK bV hb htl hpost

/-- Claim C4, amended: primary-label selection picks the label of maximal
confidence, and on an exact confidence tie the label occurring first in
the score map — i.e. earliest in the DIAGNOSIS_CATEGORIES insertion
order, which for the squamous series is the less severe category — wins,
not the more severe one; the selection is a pure function of the score
map and hence deterministic across repeated runs.  Formally: whenever a
key strictly dominates everything before it and weakly dominates
everything after it, that key is selected. -/
theorem C4_first_max_selected (l1 l2 : List (String × ℚ)) (k : String) (v : ℚ)
    (h1 : ∀ kv ∈ l1, kv.2 < v) (h2 : ∀ kv ∈ l2, kv.2 ≤ v) :
    pyMaxKey (l1 ++ (k, v) :: l2) = some k := by
  cases l1 with
  | nil =>
      simp only [List.nil_append, pyMaxKey, Option.some.injEq]
      exact pyMaxKeyGo_of_le k v l2 h2
  | cons hd tl =>
      obtain ⟨a, b⟩ := hd
      simp only [List.cons_append, pyMaxKey, Option.some.injEq]
      exact pyMaxKeyGo_first_max tl k v l2 a b
        (h1 (a, b) (List.mem_cons_self _ _))
        (fun kv hkv => h1 kv (List.mem_cons_of_mem _ hkv)) h2

/-- Score map in DIAGNOSIS_CATEGORIES order with an exact tie between the
negative category and the high-grade lesion category. -/
def tieScores : List (String × ℚ) :=
  [("nilm", mkRat 1 2), ("asc_us", 0), ("asc_h", 0), ("lsil", 0), ("hsil", mkRat 1 2),
   ("scc", 0), ("agc", 0), ("adenocarcinoma", 0), ("unsatisfactory", 0)]

/-- Counterexample to C4 as stated: on an exact confidence tie between
"nilm" (the negative finding) and "hsil" (the high-grade lesion), the
code selects "nilm" — the first-listed, less severe label — while the
spec's most-severe-wins policy selects "hsil". -/
theorem C4_counterexample :
    pyMaxKey tieScores = some "nilm" ∧
    spec_primary tieScores = some "hsil" ∧
    pyMaxKey tieScores ≠ spec_primary tieScores := by
  refine ⟨by decide, by decide, by decide⟩

/-- Witness for the amended C4 at a concrete score map: the unique
maximum is selected. -/
theorem C4_witness :
    pyMaxKey [("nilm", mkRat 1 10), ("asc_us", mkRat 3 4), ("lsil", mkRat 3 4)] = some "asc_us" :=
  C4_first_max_selected [("nilm", mkRat 1 10)] [("lsil", mkRat 3 4)] "asc_us" (mkRat 3 4)
    (by decide) (by decide)

/-! Claim C5: audit query ordering and pagination. -/

theorem mem_insertTsDesc (e : AuditLog) (l : List AuditLog) (y : AuditLog) :
    y ∈ insertTsDesc e l ↔ y = e ∨ y ∈ l := by
  induction l with
  | nil => simp [insertTsDesc]
  | cons x xs ih =>
      by_cases hc : e.timestamp ≤ x.timestamp
      · simp only [insertTsDesc, if_pos hc, List.mem_cons, ih]
        tauto
      · simp only [insertTsDesc, if_neg hc, List.mem_cons]

theorem pairwise_insertTsDesc (e : AuditLog) (l : List AuditLog)
    (h : List.Pairwise (fun a b => b.timestamp ≤ a.timestamp) l) :
    List.Pairwise (fun a b => b.timestamp ≤ a.timestamp) (insertTsDesc e l) := by
  induction l with
  | nil => simp [insertTsDesc]
  | cons x xs ih =>
      rcases List.pairwise_cons.mp h with ⟨hx, hxs⟩
      by_cases hc : e.timestamp ≤ x.timestamp
      · simp only [insertTsDesc, if_pos hc]
        refine List.pairwise_cons.mpr ⟨?_, ih hxs⟩
        intro y hy
        rcases (mem_insertTsDesc e xs y).mp hy with rfl | hyx
        · exact hc
        · exact hx y hyx
      · simp only [insertTsDesc, if_neg hc]
        refine List.pairwise_cons.mpr ⟨?_, h⟩
        intro y hy
        rcases List.mem_cons.mp hy with rfl | hyx
        · exact le_of_lt (lt_of_not_le hc)
        · exact le_trans (hx y hyx) (le_of_lt (lt_of_not_le hc))

theorem pairwise_sortTsDesc_aux (l acc : List AuditLog)
    (h : List.Pairwise (fun a b => b.timestamp ≤ a.timestamp) acc) :
    List.Pairwise (fun a b => b.timestamp ≤ a.timestamp)
      (l.foldl (fun acc e => insertTsDesc e acc) acc) := by
  induction l generalizing acc with
  | nil => exact h
  | cons x xs ih => exact ih (insertTsDesc x acc) (pairwise_insertTsDesc x acc h)

theorem pairwise_sortTsDesc (l : List AuditLog) :
    List.Pairwise (fun a b => b.timestamp ≤ a.timestamp) (sortTsDesc l) :=
  pairwise_sortTsDesc_aux l [] List.Pairwise.nil

/-- Claim C5, amended: AuditService.get_logs returns the filtered entries
ordered by timestamp descending, with rows of equal timestamp left in
underlying table order — no id tie-break is applied — and over a fixed
table the offset/limit pagination is exact: the pages at offsets skip and
skip+m concatenate to the single page of size m+n at offset skip, so
against an unchanging table no row is skipped or duplicated across
consecutive pages. -/
theorem C5_get_logs_sorted_paged :
    (∀ (logs : List AuditLog) (f : LogFilters) (skip limit : Nat),
        List.Pairwise (fun a b => b.timestamp ≤ a.timestamp)
          (AuditService.get_logs logs f skip limit).1)
    ∧ (∀ (logs : List AuditLog) (f : LogFilters) (skip m n : Nat),
        (AuditService.get_logs logs f skip m).1 ++ (AuditService.get_logs logs f (skip + m) n).1
          = (AuditService.get_logs logs f skip (m + n)).1) := by
  constructor
  · intro logs f skip limit
    unfold AuditService.get_logs
    exact List.Pairwise.sublist
      ((List.take_sublist _ _).trans (List.drop_sublist _ _)) (pairwise_sortTsDesc _)
  · intro logs f skip m n
    unfold AuditService.get_logs
    dsimp only
    rw [List.take_add, List.drop_drop]

/-- An audit row with timestamp 5 and id "a". -/
def logA : AuditLog :=
  { id := "a", user_id := none, user_email := none, action := "patient.view",
    resource_type := some "patient", resource_id := some "p1", details := [],
    ip_address := none, user_agent := none, request_id := none,
    severity := "info", timestamp := 5 }

/-- An audit row identical to logA except for its id "b". -/
def logB : AuditLog := { logA with id := "b" }

/-- The empty filter set: every clause absent. -/
def noFilters : LogFilters :=
  { action := none, resource_type := none, resource_id := none,
    user_id := none, start_date := none, end_date := none, severity := none }

/-- Counterexample to C5 as stated: two tables holding the same two rows
with equal timestamps, in opposite insertion orders, paginate to opposite
page orders — the position of rows with equal timestamps is inherited
from the table, so the query applies no timestamp-plus-id tie-break (no
fixed id direction can produce both outputs), contradicting the claimed
stable cursor ordering. -/
theorem C5_counterexample :
    logA.timestamp = logB.timestamp ∧ logA ≠ logB ∧
    (AuditService.get_logs [logB, logA] noFilters 0 50).1 = [logB, logA] ∧
    (AuditService.get_logs [logA, logB] noFilters 0 50).1 = [logA, logB] := by
  exact ⟨rfl, by decide, by decide, by decide⟩

/-! Claim C6: permission resolution. -/

theorem has_permission_of_star (r : Role) (res act : String)
    (h : ((r.permissions.lookup res).getD []).contains "*" = true) :
    r.has_permission res act = true := by
  unfold Role.has_permission
  dsimp only
  rw [h, Bool.or_true]

/-- Claim C6, amended: when the actor has a linked Role row, authorization
returns true exactly when that role grants the specific action or the "*"
wildcard on the resource type, and the seeded admin role expresses its
full access as ordinary "*" permission data on each of its seven resource
types; but when no Role row is linked, the code falls back to the legacy
string role and returns true exactly when it equals "admin" — an
implicit code-level admin bypass that grants everything without any
permission data. -/
theorem C6_authorize_resolution :
    (∀ (u : User) (r : Role) (res act : String), u.role_ref = some r →
        (u.has_permission res act = true ↔
          (((r.permissions.lookup res).getD []).contains act = true ∨
           ((r.permissions.lookup res).getD []).contains "*" = true)))
    ∧ (∀ (u : User) (res act : String), u.role_ref = none →
        (u.has_permission res act = true ↔ u.role = "admin"))
    ∧ (∀ (res act : String),
        res ∈ ["users", "patients", "samples", "diagnoses", "annotations",
               "audit", "settings"] →
        admin_role.has_permission res act = true) := by
  refine ⟨?_, ?_, ?_⟩
  · intro u r res act h
    unfold User.has_permission
    rw [h]
    unfold Role.has_permission
    simp [Bool.or_eq_true]
  · intro u res act h
    unfold User.has_permission
    rw [h]
    simp
  · intro res act hres
    fin_cases hres <;> exact has_permission_of_star _ _ act (by decide)

/-- A user with no linked Role row and legacy string role "admin". -/
def legacyAdmin : User :=
  { id := "u9", email := "root@example.org", role := "admin", role_ref := none }

/-- A user with no linked Role row and legacy string role "pathologist". -/
def legacyOther : User := { legacyAdmin with id := "u10", role := "pathologist" }

/-- Counterexample to C6 as stated: a user with no linked Role — so no
role grants the action, let alone "*" — is nevertheless authorized for
everything because the code special-cases the legacy string role "admin";
an otherwise identical user with a different legacy role is denied.  The
claimed equivalence with granted permission data therefore fails, and the
admin fallback lives in code, not in seeded Role data. -/
theorem C6_counterexample :
    legacyAdmin.role_ref = none ∧
    legacyAdmin.has_permission "patients" "read" = true ∧
    legacyOther.role_ref = none ∧
    legacyOther.has_permission "patients" "read" = false :=
  ⟨rfl, rfl, rfl, rfl⟩

/-- Witness for the amended C6 at concrete inputs: the pathologist role
grants sign_off on the clinician records resource through its permission
data, and the legacy fallback authorizes the role_ref-less admin. -/
theorem C6_witness :
    user0.has_permission "annotations" "sign_off" = true ∧
    legacyAdmin.has_permission "diagnoses" "approve" = true :=
  ⟨(C6_authorize_resolution.1 user0 pathologist_role "annotations" "sign_off" rfl).mpr
     (Or.inl (by decide)),
   (C6_authorize_resolution.2.1 legacyAdmin "diagnoses" "approve" rfl).mpr rfl⟩

/-! Claims C7 and C9: re-analysis and the two separate commits. -/

theorem log_action_air_ai_results (db : DB) (user : Option User) (act rid : String)
    (det : List (String × JsonVal)) (now : Nat) (lid : String) :
    (AIResultService.log_action db user act rid det now lid).ai_results = db.ai_results := by
  cases user <;> rfl

theorem run_analysis_sample_of_found (db : DB) (user : Option User) (sid : String)
    (inf : InferenceOutput) (rid : String) (now : Nat) (lid : String) (s : Sample)
    (h : db.samples.find? (fun x => x.id == sid) = some s) :
    AIResultService.run_analysis_sample db user sid inf rid now lid =
      (({ db with
            ai_results := db.ai_results ++
              [{ id := rid, sample_id := sid,
                 diagnosis_primary := inf.primary_prediction,
                 diagnosis_raw_predictions := inf.confidence_scores,
                 confidence_scores := inf.confidence_scores,
                 primary_prediction := some inf.primary_prediction,
                 primary_confidence := some inf.primary_confidence,
                 heatmap_path := none, model_version := some "1.0.0",
                 model_name := some "CervixAI-ResNet50",
                 ai_notes := some inf.ai_notes }],
            samples :=
              updateFirst (fun x => x.id == sid)
                (fun x => { x with status := "analyzed" }) db.samples } : DB) ::
        (if user.isSome then
          [AIResultService.log_action
            { db with
                ai_results := db.ai_results ++
                  [{ id := rid, sample_id := sid,
                     diagnosis_primary := inf.primary_prediction,
                     diagnosis_raw_predictions := inf.confidence_scores,
                     confidence_scores := inf.confidence_scores,
                     primary_prediction := some inf.primary_prediction,
                     primary_confidence := some inf.primary_confidence,
                     heatmap_path := none, model_version := some "1.0.0",
                     model_name := some "CervixAI-ResNet50",
                     ai_notes := some inf.ai_notes }],
                samples :=
                  updateFirst (fun x => x.id == sid)
                    (fun x => { x with status := "analyzed" }) db.samples }
            user "ai_result.create" rid
            [("prediction", JsonVal.str inf.primary_prediction),
             ("confidence", JsonVal.num inf.primary_confidence)] now lid]
        else []),
       some { id := rid, sample_id := sid,
              diagnosis_primary := inf.primary_prediction,
              diagnosis_raw_predictions := inf.confidence_scores,
              confidence_scores := inf.confidence_scores,
              primary_prediction := some inf.primary_prediction,
              primary_confidence := some inf.primary_confidence,
              heatmap_path := none, model_version := some "1.0.0",
              model_name := some "CervixAI-ResNet50",
              ai_notes := some inf.ai_notes }) := by
  unfold AIResultService.run_analysis_sample
  rw [h]

/-- Claim C7, amended: no CaseAlreadyFinalizedForRound error and no
reopen action exist anywhere.  The sample branch of the service
run_analysis performs no finalization check: it succeeds on every
existing sample — even when a signed-off clinician record already
references one of the sample's AI results — and every committed snapshot
contains one freshly created AIResult.  The screening branch never
succeeds at all: it raises TypeError constructing the Diagnosis (no
status column) before any write.  The analyze route rejects re-analysis
with 400 "AI analysis already completed for this screening" whenever a
diagnosis with an AI prediction exists, whatever its review or sign-off
state; past its guards it commits the state change and then raises
TypeError building the audit row, so no audit entry is written on that
path either. -/
theorem C7_no_finalization_check :
    (∀ (db : DB) (user : Option User) (sid : String) (inf : InferenceOutput)
        (rid : String) (now : Nat) (lid : String) (s : Sample),
        db.samples.find? (fun x => x.id == sid) = some s →
        ((AIResultService.run_analysis_sample db user sid inf rid now lid).2).isSome = true
        ∧ ∀ dbz ∈ (AIResultService.run_analysis_sample db user sid inf rid now lid).1,
            dbz.ai_results.length = db.ai_results.length + 1)
    ∧ (∀ (db : DB) (user : Option User) (sid : String) (inf : InferenceOutput)
        (did : String) (now : Nat) (lid : String) (scr : Screening),
        db.screenings.find? (fun s => s.id == sid) = some scr →
        AIResultService.run_analysis_screening db user sid inf did now lid
          = ([], Except.error (PyTypeError.invalidKeyword "Diagnosis" "status")))
    ∧ (∀ (db : DB) (u : User) (sid pr : String) (cf : ℚ) (nt dgid : String)
        (now : Nat) (scr : Screening) (d : Diagnosis),
        db.screenings.find? (fun s => s.id == sid) = some scr →
        (db.images.filter (fun im => im.screening_id == sid)).isEmpty = false →
        db.diagnoses.find? (fun x => x.screening_id == sid) = some d →
        optStrTruthy d.ai_prediction = true →
        run_ai_analysis db u sid pr cf nt dgid now
          = ([], Except.error AnalyzeRouteError.alreadyAnalyzed))
    ∧ (∀ (db : DB) (u : User) (sid pr : String) (cf : ℚ) (nt dgid : String)
        (now : Nat) (scr : Screening),
        db.screenings.find? (fun s => s.id == sid) = some scr →
        (db.images.filter (fun im => im.screening_id == sid)).isEmpty = false →
        db.diagnoses.find? (fun x => x.screening_id == sid) = none →
        (run_ai_analysis db u sid pr cf nt dgid now).2
          = Except.error AnalyzeRouteError.auditTypeError
        ∧ ∀ dbz ∈ (run_ai_analysis db u sid pr cf nt dgid now).1,
            dbz.audit_logs = db.audit_logs
            ∧ dbz.diagnoses.length = db.diagnoses.length + 1) := by
  refine ⟨?_, ?_, ?_, ?_⟩
  · intro db user sid inf rid now lid s h
    rw [run_analysis_sample_of_found db user sid inf rid now lid s h]
    refine ⟨rfl, ?_⟩
    intro dbz hmem
    cases user with
    | none =>
        simp only [Option.isSome_none, Bool.false_eq_true, if_false] at hmem
        rcases List.mem_singleton.mp hmem with rfl
        simp
    | some u =>
        simp only [Option.isSome_some, if_true] at hmem
        rcases List.mem_cons.mp hmem with rfl | hmem2
        · simp
        · rcases List.mem_singleton.mp hmem2 with rfl
          rw [log_action_air_ai_results]
          simp
  · intro db user sid inf did now lid scr h
    unfold AIResultService.run_analysis_screening
    rw [h]
  · intro db u sid pr cf nt dgid now scr d hscr himg hd hpred
    unfold run_ai_analysis
    rw [hscr]
    simp only [himg, Bool.false_eq_true, if_false]
    rw [hd]
    simp [hpred]
  · intro db u sid pr cf nt dgid now scr hscr himg hd
    unfold run_ai_analysis
    rw [hscr]
    simp only [himg, Bool.false_eq_true, if_false]
    rw [hd]
    refine ⟨rfl, ?_⟩
    intro dbz hmem
    rcases List.mem_singleton.mp hmem with rfl
    exact ⟨rfl, by simp⟩

/-- A processed sample, for the C7 and C9 databases. -/
def sample1 : Sample :=
  { id := "sm1", patient_id := "p1", collection_date := 3, batch_id := none,
    sample_type := some "pap_smear", metadata := [], status := "reviewed",
    image_path := none }

/-- An existing AI result r1 on sample sm1, for the C7 counterexample. -/
def air1 : AIResult :=
  { id := "r1", sample_id := "sm1", diagnosis_primary := "hsil",
    diagnosis_raw_predictions := [], confidence_scores := [],
    primary_prediction := some "hsil", primary_confidence := some (mkRat 9 10),
    heatmap_path := none, model_version := some "1.0.0",
    model_name := some "CervixAI-ResNet50", ai_notes := none }

/-- Database whose only sample already carries an AI result with a
signed-off clinician record: the round is finalized in the claim's
sense. -/
def dbC7 : DB :=
  { emptyDB with
      samples := [sample1],
      ai_results := [air1],
      annotations := [annotSigned] }

/-- A fixed inference output used to drive the analysis runs. -/
def infC7 : InferenceOutput :=
  { confidence_scores := [("nilm", 1)], primary_prediction := "nilm",
    primary_confidence := 1, ai_notes := "ok" }

/-- Counterexample to C7 as stated: the sample's round is finalized — a
signed-off clinician record references its AI result r1 and no reopen has
happened — yet requesting analysis again succeeds with no error (no
CaseAlreadyFinalizedForRound exists anywhere in the code) and every
committed snapshot holds a second, freshly created AIResult. -/
theorem C7_counterexample :
    dbC7.annotations.any (fun a => a.signed_off && a.result_id == "r1") = true ∧
    ((AIResultService.run_analysis_sample dbC7 (some user0) "sm1" infC7 "r2" 20 "L7").2).isSome
      = true ∧
    ((AIResultService.run_analysis_sample dbC7 (some user0) "sm1" infC7 "r2" 20 "L7").1.map
      (fun dbz => dbz.ai_results.length)) = [2, 2] := by
  refine ⟨by decide, by decide, by decide⟩

/-- An image row for screening s1, for the C7 witness. -/
def img1 : ScreeningImage :=
  { id := "im1", screening_id := "s1", filename := "f.png", file_path := "/up/f.png" }

/-- Database whose screening s1 is completed, has an image, and already
carries a diagnosis with an AI prediction, for the C7 witness. -/
def dbC7r : DB :=
  { emptyDB with
      screenings := [{ scr1 with status := "completed" }],
      images := [img1],
      diagnoses := [diag1] }

/-- Witness for the amended C7 at concrete inputs: the screening branch
of the service raises the Diagnosis constructor TypeError on the
completed screening s1, and the route rejects the re-analysis of the same
screening with the "already completed" error (not any finalization
error). -/
theorem C7_witness :
    AIResultService.run_analysis_screening dbC7r (some user0) "s1" infC7 "d9" 30 "L8"
      = ([], Except.error (PyTypeError.invalidKeyword "Diagnosis" "status")) ∧
    run_ai_analysis dbC7r user0 "s1" "nilm" 1 "n" "d9" 30
      = ([], Except.error AnalyzeRouteError.alreadyAnalyzed) :=
  ⟨C7_no_finalization_check.2.1 dbC7r (some user0) "s1" infC7 "d9" 30 "L8"
     { scr1 with status := "completed" } (by decide),
   C7_no_finalization_check.2.2.1 dbC7r user0 "s1" "nilm" 1 "n" "d9" 30
     { scr1 with status := "completed" } diag1 (by decide) (by decide) (by decide)
     (by decide)⟩

/-- Claim C9, amended: each analysis intent is committed in two separate
transactions, state first.  The first committed snapshot already contains
the new AIResult while the audit ledger is still untouched; the audit row
is appended only by a second commit, and only when a user is attached.  A
failure of the audit write after the first commit therefore leaves a
durable state change with no audit entry (and with no user the audit
write is skipped outright); nothing escalates to a PersistenceFailure or
rolls the state back. -/
theorem C9_two_phase_commit (db : DB) (user : Option User) (sid : String)
    (inf : InferenceOutput) (rid : String) (now : Nat) (lid : String) (s : Sample)
    (h : db.samples.find? (fun x => x.id == sid) = some s) :
    ∃ db1,
      (AIResultService.run_analysis_sample db user sid inf rid now lid).1.head? = some db1
      ∧ db1.audit_logs = db.audit_logs
      ∧ db1.ai_results.length = db.ai_results.length + 1
      ∧ (user = none →
          (AIResultService.run_analysis_sample db user sid inf rid now lid).1 = [db1])
      ∧ (∀ u, user = some u →
          (AIResultService.run_analysis_sample db user sid inf rid now lid).1
            = [db1, AIResultService.log_action db1 (some u) "ai_result.create" rid
                [("prediction", JsonVal.str inf.primary_prediction),
                 ("confidence", JsonVal.num inf.primary_confidence)] now lid]) := by
  rw [run_analysis_sample_of_found db user sid inf rid now lid s h]
  refine ⟨_, rfl, rfl, by simp, ?_, ?_⟩
  · intro hu
    subst hu
    rfl
  · intro u hu
    subst hu
    rfl

/-- Database holding only the sample sm1, for the C9 theorems. -/
def dbC9 : DB := { emptyDB with samples := [sample1] }

/-- Counterexample to C9 as stated: with a user attached, the first
committed snapshot of the analysis intent holds the new AIResult and
zero audit rows — the mutation is durable before the audit write, so an
audit-write failure leaves exactly that committed-but-unaudited state —
and with no user attached the intent completes successfully with the
state change as its only commit and no audit entry ever written. -/
theorem C9_counterexample :
    ((AIResultService.run_analysis_sample dbC9 (some user0) "sm1" infC7 "r1" 40 "L1").1.map
      (fun dbz => (dbz.ai_results.length, dbz.audit_logs.length))) = [(1, 0), (1, 1)] ∧
    ((AIResultService.run_analysis_sample dbC9 none "sm1" infC7 "r1" 40 "L1").1.map
      (fun dbz => (dbz.ai_results.length, dbz.audit_logs.length))) = [(1, 0)] ∧
    ((AIResultService.run_analysis_sample dbC9 none "sm1" infC7 "r1" 40 "L1").2).isSome
      = true := by
  refine ⟨by decide, by decide, by decide⟩

/-- Witness for the amended C9 at a concrete database: the analysis of
sm1 commits the state change first, audit-free, then the audit row. -/
theorem C9_witness :
    ∃ db1,
      (AIResultService.run_analysis_sample dbC9 (some user0) "sm1" infC7 "r1" 40 "L1").1.head?
        = some db1
      ∧ db1.audit_logs = dbC9.audit_logs
      ∧ db1.ai_results.length = dbC9.ai_results.length + 1
      ∧ ((some user0 : Option User) = none →
          (AIResultService.run_analysis_sample dbC9 (some user0) "sm1" infC7 "r1" 40 "L1").1
            = [db1])
      ∧ (∀ u, (some user0 : Option User) = some u →
          (AIResultService.run_analysis_sample dbC9 (some user0) "sm1" infC7 "r1" 40 "L1").1
            = [db1, AIResultService.log_action db1 (some u) "ai_result.create" "r1"
                [("prediction", JsonVal.str infC7.primary_prediction),
                 ("confidence", JsonVal.num infC7.primary_confidence)] 40 "L1"]) :=
  C9_two_phase_commit dbC9 (some user0) "sm1" infC7 "r1" 40 "L1" sample1 (by decide)

/-! Claim C8: audit entries per successful intent. -/

theorem get_patient_by_id_of_found (db : DB) (user : Option User) (pid : String)
    (now : Nat) (lid : String) (p : Patient)
    (h : db.patients.find? (fun x => x.id == pid) = some p) :
    PatientService.get_patient_by_id db user pid now lid =
      (PatientService.log_action db user "patient.view" p.id [] now lid, some p) := by
  unfold PatientService.get_patient_by_id
  rw [h]

theorem get_patient_by_id_of_none (db : DB) (user : Option User) (pid : String)
    (now : Nat) (lid : String)
    (h : db.patients.find? (fun x => x.id == pid) = none) :
    PatientService.get_patient_by_id db user pid now lid = (db, none) := by
  unfold PatientService.get_patient_by_id
  rw [h]

/-- Claim C8, amended: with an authenticated user attached, creating a
patient appends exactly one audit entry and signing off a clinician
record appends exactly one critical entry; but a successful
update_patient or delete_patient appends two entries — the mutation
entry plus a patient.view entry written by the lookup each performs
first — and when no user is attached, successful mutations (create,
update, delete, sign-off) append no audit entry at all.  The exactly-one
accounting of the claim holds only for the create-style paths with a
user present. -/
theorem C8_audit_per_intent :
    (∀ (db : DB) (u : User) (data : PatientCreate) (pid : String) (now : Nat) (lid : String),
        (PatientService.create_patient db (some u) data pid now lid).1.audit_logs
          = db.audit_logs ++
            [ AuditLog.log_action lid "patient.create" (some u) (some "patient")
                (some pid) [] none "info" now ])
    ∧ (∀ (db : DB) (u : User) (pid : String) (data : PatientUpdate) (now : Nat)
          (lv lu : String) (p : Patient),
        db.patients.find? (fun x => x.id == pid) = some p →
        (PatientService.update_patient db (some u) pid data now lv lu).1.audit_logs
          = db.audit_logs ++
            [ AuditLog.log_action lv "patient.view" (some u) (some "patient")
                (some p.id) [] none "info" now,
              AuditLog.log_action lu "patient.update" (some u) (some "patient")
                (some p.id) [("updated_fields", JsonVal.strs data.updated_fields)]
                none "info" now ])
    ∧ (∀ (db : DB) (data : PatientCreate) (pid : String) (now : Nat) (lid : String),
        (PatientService.create_patient db none data pid now lid).1.audit_logs
          = db.audit_logs)
    ∧ (∀ (db : DB) (pid : String) (data : PatientUpdate) (now : Nat) (lv lu : String),
        (PatientService.update_patient db none pid data now lv lu).1.audit_logs
          = db.audit_logs)
    ∧ (∀ (db : DB) (u : User) (i : String) (now : Nat) (lid : String) (a : Annot),
        db.annotations.find? (fun x => x.id == i) = some a → a.signed_off = false →
        (AnnotService.sign_off_annot db (some u) i now lid).1.audit_logs
          = db.audit_logs ++
            [ AuditLog.log_action lid "annotation.sign_off" (some u) (some "annotation")
                (some a.id) [] none "critical" now ])
    ∧ (∀ (db : DB) (u : User) (pid : String) (now : Nat) (lv ld : String) (p : Patient),
        db.patients.find? (fun x => x.id == pid) = some p →
        (PatientService.delete_patient db (some u) pid now lv ld).1.audit_logs
          = db.audit_logs ++
            [ AuditLog.log_action lv "patient.view" (some u) (some "patient")
                (some p.id) [] none "info" now,
              AuditLog.log_action ld "patient.delete" (some u) (some "patient")
                (some p.id) [] none "info" now ])
    ∧ (∀ (db : DB) (pid : String) (now : Nat) (lv ld : String),
        (PatientService.delete_patient db none pid now lv ld).1.audit_logs
          = db.audit_logs)
    ∧ (∀ (db : DB) (i : String) (now : Nat) (lid : String) (a : Annot),
        db.annotations.find? (fun x => x.id == i) = some a → a.signed_off = false →
        (AnnotService.sign_off_annot db none i now lid).1.audit_logs
          = db.audit_logs) := by
  refine ⟨?_, ?_, ?_, ?_, ?_, ?_, ?_, ?_⟩
  · intro db u data pid now lid
    rfl
  · intro db u pid data now lv lu p h
    unfold PatientService.update_patient
    rw [get_patient_by_id_of_found db (some u) pid now lv p h]
    simp [PatientService.log_action, List.append_assoc]
  · intro db data pid now lid
    rfl
  · intro db pid data now lv lu
    cases hf : db.patients.find? (fun x => x.id == pid) with
    | none =>
        unfold PatientService.update_patient
        rw [get_patient_by_id_of_none db none pid now lv hf]
    | some p =>
        unfold PatientService.update_patient
        rw [get_patient_by_id_of_found db none pid now lv p hf]
        rfl
  · intro db u i now lid a hf hs
    rw [sign_off_annot_of_unsigned db (some u) i now lid a hf hs]
    rfl
  · intro db u pid now lv ld p h
    unfold PatientService.delete_patient
    rw [get_patient_by_id_of_found db (some u) pid now lv p h]
    simp [PatientService.log_action, List.append_assoc]
  · intro db pid now lv ld
    cases hf : db.patients.find? (fun x => x.id == pid) with
    | none =>
        unfold PatientService.delete_patient
        rw [get_patient_by_id_of_none db none pid now lv hf]
    | some p =>
        unfold PatientService.delete_patient
        rw [get_patient_by_id_of_found db none pid now lv p hf]
        rfl
  · intro db i now lid a hf hs
    rw [sign_off_annot_of_unsigned db none i now lid a hf hs]
    rfl

/-- A consenting patient p1, for the C8 database. -/
def patient1 : Patient :=
  { id := "p1", first_name := "Ada", last_name := "L", date_of_birth := 700,
    gender := none, contact_info := [], email := none, phone := none,
    medical_record_number := some "MRN1", consent_given := true,
    consent_date := none, notes := none, risk_factors := [], is_active := true }

/-- Database holding the single patient p1 and an empty ledger. -/
def dbC8 : DB := { emptyDB with patients := [patient1] }

/-- An update body setting the phone field, for the C8 theorems. -/
def updP : PatientUpdate :=
  { first_name := none, last_name := none, email := none,
    phone := some "555", notes := none, consent_given := none }

/-- Counterexample to C8 as stated: one successful update intent writes
two ledger entries (a patient.view from the lookup plus patient.update)
and one successful delete intent likewise writes two (patient.view plus
patient.delete), not exactly one; and the same successful update and
delete intents with no user attached write zero entries.  None of these
counts matches the claimed exactly-one accounting, and none of the extra
entries is the documented idempotent-repeat entry. -/
theorem C8_counterexample :
    ((PatientService.update_patient dbC8 (some user0) "p1" updP 30 "V1" "U1").1.audit_logs.map
      (fun l => l.action)) = ["patient.view", "patient.update"] ∧
    ((PatientService.delete_patient dbC8 (some user0) "p1" 31 "V2" "D1").1.audit_logs.map
      (fun l => l.action)) = ["patient.view", "patient.delete"] ∧
    ((PatientService.update_patient dbC8 none "p1" updP 30 "V1" "U1").2).isSome = true ∧
    (PatientService.update_patient dbC8 none "p1" updP 30 "V1" "U1").1.audit_logs.length
      = 0 ∧
    (PatientService.delete_patient dbC8 none "p1" 31 "V2" "D1").2 = true ∧
    (PatientService.delete_patient dbC8 none "p1" 31 "V2" "D1").1.audit_logs.length
      = 0 := by
  refine ⟨by decide, by decide, by decide, by decide, by decide, by decide⟩

/-- Witness for the amended C8 at a concrete database: updating p1 with a
user attached appends exactly the view entry and the update entry. -/
theorem C8_witness :
    (PatientService.update_patient dbC8 (some user0) "p1" updP 30 "V1" "U1").1.audit_logs
      = dbC8.audit_logs ++
        [ AuditLog.log_action "V1" "patient.view" (some user0) (some "patient")
            (some patient1.id) [] none "info" 30,
          AuditLog.log_action "U1" "patient.update" (some user0) (some "patient")
            (some patient1.id) [("updated_fields", JsonVal.strs updP.updated_fields)]
            none "info" 30 ] :=
  C8_audit_per_intent.2.1 dbC8 user0 "p1" updP 30 "V1" "U1" patient1 (by decide)

end CervixAI
